import Mathlib

/-!
Verification of the crypto-forecast backtesting engine (src/model.py, src/prepare.py).

The development shallowly embeds the data model and the operations of the
rolling-window walk-forward evaluation engine:

* dataframes are lists of rows; a row carries its (integer) timestamp `ts`
  and a total valuation `cols : Col → ℚ` of its named numeric columns
  (boolean columns such as `fwd_close_positive` are encoded as 0/1 rationals,
  matching the numpy comparison semantics the source relies on);
* NaN cells (pandas missing values, e.g. produced by `close.shift(-1)` at the
  final row) are `Option ℚ` with `none` for NaN, and arithmetic on possibly
  missing cells is none-propagating, as NaN arithmetic is;
* sklearn estimators are external collaborators: a model is a parameter
  `fit : X → y → (x → ŷ)` (`model.fit` followed by `model.predict`), and the
  recursive-feature-elimination helper `get_top_features` is likewise a
  parameter returning the selected column subset;
* `numpy.sqrt` (used through `mean_squared_error(..., squared=False)` and the
  standard deviation of `StandardScaler`) is a parameter `sqrt : ℚ → ℚ` so
  that every definition stays executable;
* Python exceptions are `Except`; the Python heap, where reference sharing of
  one mutable dict matters (`rolling_class_models`), is an explicit store of
  dict cells addressed by allocation order.
-/

namespace CryptoForecast

attribute [local semireducible] Rat.mul Rat.add Rat.sub Rat.inv

/-- A dataframe column name. -/
abbrev Col := String

/-- One row of a per-asset feature/target dataframe: the timestamp index value
and the numeric value of each named column. -/
structure Row where
  ts : Nat
  cols : Col → ℚ

/-- One row of a single-column target frame (`y_train`, `y_validate`, ...):
timestamp index value and target value. -/
structure YRow where
  ts : Nat
  val : ℚ
deriving DecidableEq

/-- A dataframe, ordered by its (timestamp) index. -/
abbrev Dataset := List Row

/-- Arithmetic mean of a list of rationals (`np.mean` / `Series.mean` on a
complete column). On the empty list this is `0/0 = 0` in `ℚ`. -/
def listMean (xs : List ℚ) : ℚ := xs.sum / xs.length

/-- Population variance, the statistic `StandardScaler` fits (ddof = 0). -/
def listVar (xs : List ℚ) : ℚ := listMean (xs.map (fun x => (x - listMean xs) ^ 2))

/-- pandas `Series.mean` over a column that may contain NaN: NaN entries are
skipped; the mean of an all-NaN (or empty) column is NaN (`none`). -/
def nanMean (xs : List (Option ℚ)) : Option ℚ :=
  let v := xs.filterMap id
  if v.isEmpty then none else some (listMean v)

/-- NaN-propagating subtraction on possibly missing cells. -/
def osub : Option ℚ → Option ℚ → Option ℚ
  | some a, some b => some (a - b)
  | _, _ => none

/-- NaN-propagating division on possibly missing cells. -/
def odiv : Option ℚ → Option ℚ → Option ℚ
  | some a, some b => some (a / b)
  | _, _ => none

/-- `mean_squared_error(actuals, preds)`: mean of pairwise squared errors. -/
def mean_squared_error (actuals preds : List ℚ) : ℚ :=
  listMean (List.zipWith (fun a p => (a - p) ^ 2) actuals preds)

/-- `mean_squared_error(actuals, preds, squared=False)`: root mean squared
error, with `numpy.sqrt` abstracted as the parameter `sqrt`. -/
def rmse (sqrt : ℚ → ℚ) (actuals preds : List ℚ) : ℚ :=
  sqrt (mean_squared_error actuals preds)

/-- `accuracy_score(actuals, preds)`: fraction of exactly matching entries. -/
def accuracy_score (actuals preds : List ℚ) : ℚ :=
  listMean (List.zipWith (fun a p => if a = p then (1 : ℚ) else 0) actuals preds)

/-! ### Scaler (src/model.py lines 62-92, `scale_datasets`) -/

/-- The state of a fitted `StandardScaler`: per-column mean and scale
(standard deviation). -/
structure FittedScaler where
  mean : Col → ℚ
  scale : Col → ℚ

/-- The values of one column of a dataframe. -/
def colVals (data : Dataset) (c : Col) : List ℚ := data.map (fun r => r.cols c)

/-- `StandardScaler().fit(data)`: per column, mean and standard deviation
(square root of the population variance) of the fitted data. -/
def standardScalerFit (sqrt : ℚ → ℚ) (data : Dataset) : FittedScaler :=
  ⟨fun c => listMean (colVals data c), fun c => sqrt (listVar (colVals data c))⟩

/-- `scaler.transform` on one row, followed by the `pd.concat` of
src/model.py lines 79-90: columns listed in `features_to_scale` are replaced
by `(x - mean)/std` under the fitted statistics, every other column is the
untouched original (it came from `X.drop(columns=features_to_scale)`). -/
def FittedScaler.transformRow (sc : FittedScaler) (features_to_scale : List Col) (r : Row) : Row :=
  ⟨r.ts, fun c => if c ∈ features_to_scale then (r.cols c - sc.mean c) / sc.scale c else r.cols c⟩

/-- `scaler.transform` on a whole dataframe (rowwise). -/
def FittedScaler.transform (sc : FittedScaler) (features_to_scale : List Col) (data : Dataset) :
    Dataset :=
  data.map (sc.transformRow features_to_scale)

/-- The six dataframes `scale_datasets` returns. -/
structure ScaledData where
  X_train_scaled : Dataset
  X_validate_scaled : Dataset
  X_test_scaled : Dataset
  y_train : List YRow
  y_validate : List YRow
  y_test : List YRow

/-- `train[[target]]` etc.: the single-column target frame of a dataframe. -/
def targetFrame (target : Col) (d : Dataset) : List YRow :=
  d.map (fun r => ⟨r.ts, r.cols target⟩)

/-- src/model.py lines 62-92 (`scale_datasets`): fit a `StandardScaler` on the
train features only, transform train, validate and test with that single
fitted scaler, and pass the target column through unscaled.  In the row
representation the column restriction `train[features_to_use]` is implicit:
rows keep their full valuation and every property quantifies only over
columns in `features_to_use`. -/
def scale_datasets (sqrt : ℚ → ℚ) (train validate test : Dataset) (target : Col)
    (features_to_use features_to_scale : List Col) : ScaledData :=
  let _ := features_to_use
  let scaler := standardScalerFit sqrt train
  ⟨scaler.transform features_to_scale train,
   scaler.transform features_to_scale validate,
   scaler.transform features_to_scale test,
   targetFrame target train, targetFrame target validate, targetFrame target test⟩

/-! ### Trade conversion (src/model.py lines 199-204, 510-514, 591-595) -/

/-- `go_long = predictions > 0` (src/model.py line 511 / 200 / 592).  For a
boolean (0/1 encoded) classification prediction this comparison is the
prediction itself. -/
def go_long (prediction : ℚ) : Bool := decide (prediction > 0)

/-- `ret = np.where(go_long, next_day_close - close, close - next_day_close)`
(src/model.py line 513 / 202 / 594); NaN (a missing next-day close at the
final validate row) propagates. -/
def trade_ret (gl : Bool) (close : ℚ) (next_day_close : Option ℚ) : Option ℚ :=
  next_day_close.map (fun n => if gl then n - close else close - n)

/-- `pct_ret = ret / close` (src/model.py line 514 / 204 / 595). -/
def pct_trade_ret (ret : Option ℚ) (close : ℚ) : Option ℚ :=
  ret.map (fun x => x / close)

/-! ### Rolling evaluation engine (src/model.py lines 231-293,
`get_rolling_predictions`) -/

/-- An sklearn-style estimator, abstracted: `fit X y` returns the fitted
one-row predictor `model.predict` (the source predicts single validate rows
through `.reshape(1,-1)`, so the predictor consumes one feature vector). -/
abbrev FitFun := List (List ℚ) → List ℚ → List ℚ → ℚ

/-- The four lists `get_rolling_predictions` returns. -/
structure RollOut where
  train_rolling_predictions : List (List ℚ)
  train_rolling_actuals : List (List ℚ)
  validate_rolling_predictions : List ℚ
  validate_rolling_actuals : List ℚ
deriving DecidableEq

/-- The walk-forward loop of src/model.py lines 262-291: for each validate
row, fit on the current window, record in-sample predictions and actuals,
predict the single validate row, then advance the window by dropping its
oldest row (`iloc[1:]`) and appending the just-predicted validate row
(features and true target). -/
def rollLoop (fit : FitFun) (feats : List Col) :
    Dataset → List YRow → List (Row × YRow) → RollOut
  | _, _, [] => ⟨[], [], [], []⟩
  | xW, yW, (vx, vy) :: rest =>
    let X := xW.map (fun r => feats.map r.cols)
    let yvals := yW.map (fun y => y.val)
    let predict := fit X yvals
    let train_prediction := X.map predict
    let validate_prediction := predict (feats.map vx.cols)
    let out := rollLoop fit feats (xW.drop 1 ++ [vx]) (yW.drop 1 ++ [vy]) rest
    ⟨train_prediction :: out.train_rolling_predictions,
     yvals :: out.train_rolling_actuals,
     validate_prediction :: out.validate_rolling_predictions,
     vy.val :: out.validate_rolling_actuals⟩

/-- src/model.py lines 231-293 (`get_rolling_predictions`): scale the three
splits with a train-fitted scaler, optionally select a feature subset once at
run start (recursive feature elimination is the external parameter
`get_top_features`), then run the walk-forward loop over the validate rows. -/
def get_rolling_predictions (sqrt : ℚ → ℚ) (fit : FitFun)
    (get_top_features : Dataset → List YRow → List Col)
    (train validate test : Dataset) (target : Col)
    (features_to_use features_to_scale : List Col)
    (perform_feature_selection : Bool) : RollOut :=
  let sd := scale_datasets sqrt train validate test target features_to_use features_to_scale
  let feats :=
    if perform_feature_selection then get_top_features sd.X_train_scaled sd.y_train
    else features_to_use
  rollLoop fit feats sd.X_train_scaled sd.y_train (sd.X_validate_scaled.zip sd.y_validate)

/-- The window state of the walk-forward loop right before the fit of step
`i`: `windowAt w0 vs 0` is the initial (scaled train) window, and each
advance is the `iloc[1:]` drop of the oldest row followed by the append of
validate row `i` (src/model.py lines 285-291). -/
def windowAt {α : Type} (w0 vs : List α) : Nat → List α
  | 0 => w0
  | i + 1 => (windowAt w0 vs i).drop 1 ++ (vs.drop i).take 1

/-! ### ARIMA grid search (src/model.py lines 34-60, `evaluate_models`) -/

/-- Outcome of one `evaluate_arima_model` call (lines 12-32; the ARIMA fit
itself is the external statsmodels collaborator): a result triple, an
ordinary exception, or a `KeyboardInterrupt`. -/
inductive ArimaOutcome where
  | ok (mse : ℚ) (test_target : List ℚ) (predictions : List ℚ)
  | exc
  | interrupt
deriving DecidableEq

/-- An exception escaping `evaluate_models`: the re-raised
`KeyboardInterrupt`, or the `ValueError` pandas raises when a column of the
wrong length is assigned to `results_df`. -/
inductive SweepError where
  | keyboardInterrupt
  | valueError
deriving DecidableEq

/-- The four accumulator lists of `evaluate_models` (lines 36-39). -/
structure SweepState where
  orders : List (Nat × Nat × Nat)
  mses : List ℚ
  prediction_list : List (List ℚ)
  actual_test : List (List ℚ)
deriving DecidableEq

/-- The `(p, d, q)` combinations in the order of the three nested loops. -/
def ordersGrid (p_values d_values q_values : List Nat) : List (Nat × Nat × Nat) :=
  p_values.flatMap (fun p => d_values.flatMap (fun d => q_values.map (fun q => (p, d, q))))

/-- The loop body of lines 40-55: the order is appended to `orders` before
the `try`; on success the three result lists are extended, on an ordinary
exception the combination is skipped and the sweep continues, and a
`KeyboardInterrupt` is re-raised immediately. -/
def sweepLoop (evalArima : Nat × Nat × Nat → ArimaOutcome) :
    List (Nat × Nat × Nat) → SweepState → Except SweepError SweepState
  | [], st => .ok st
  | o :: rest, st =>
    let st1 : SweepState := { st with orders := st.orders ++ [o] }
    match evalArima o with
    | .ok mse tt preds =>
      sweepLoop evalArima rest
        { st1 with
          mses := st1.mses ++ [mse],
          prediction_list := st1.prediction_list ++ [preds],
          actual_test := st1.actual_test ++ [tt] }
    | .exc => sweepLoop evalArima rest st1
    | .interrupt => .error .keyboardInterrupt

/-- src/model.py lines 34-60 (`evaluate_models`): run the sweep, then build
`results_df` from `orders` and assign the `mse`, `test_predictions` and
`test_actual` columns.  pandas raises `ValueError` on the first column
assignment whose list length differs from the number of index rows, which
happens exactly when some combination failed (its order was recorded but its
metrics were not). -/
def evaluate_models (evalArima : Nat × Nat × Nat → ArimaOutcome)
    (p_values d_values q_values : List Nat) : Except SweepError SweepState :=
  (sweepLoop evalArima (ordersGrid p_values d_values q_values) ⟨[], [], [], []⟩).bind
    (fun st =>
      if st.mses.length = st.orders.length then .ok st else .error .valueError)

/-! ### Per-model result tables (src/model.py lines 500-514, 583-595) -/

/-- A row of the per-model `validate_res` dataframe built by the rolling
runs: actual target, prediction, close, next-day close (`close.shift(-1)`,
NaN on the last row), the long flag, the realized trade return and the
percent trade return. -/
structure RRow where
  actual : ℚ
  predictions : ℚ
  close : ℚ
  next_day_close : Option ℚ
  long : Bool
  ret : Option ℚ
  pct_ret : Option ℚ
deriving DecidableEq

/-- Builds `validate_res` from the actuals, the per-step predictions and the
validate close column (src/model.py lines 500-514 / 583-595): row `i` pairs
`close[i]` with `close[i+1]` (`shift(-1)`, `none` past the end), goes long on
a positive prediction, and always takes a long or short position. -/
def mkValidateRes : List ℚ → List ℚ → List ℚ → List RRow
  | a :: as, p :: ps, c :: cs =>
    let next := cs.head?
    let gl := go_long p
    let r := trade_ret gl c next
    ⟨a, p, c, next, gl, r, pct_trade_ret r c⟩ :: mkValidateRes as ps cs
  | _, _, _ => []

/-! ### Rolling regression aggregation (src/model.py lines 465-524,
`rolling_reg_models`, inner loop body lines 483-519) -/

/-- What one (asset, model) iteration of `rolling_reg_models` stores: the
mean in-sample RMSE over all refits, the single out-of-sample RMSE over the
full prediction sequence, and the ordered per-step result table. -/
structure RegRunResult where
  train_rmse : ℚ
  validate_rmse : ℚ
  validate_res : List RRow
deriving DecidableEq

/-- src/model.py lines 483-519: run `get_rolling_predictions` (with feature
selection enabled, as `rolling_reg_models` passes `True`), average the
per-refit in-sample RMSEs (`np.mean` over `range(len(train_rolling_actuals))`),
compute one RMSE over the whole out-of-sample sequence, and build
`validate_res`. -/
def rolling_reg_run (sqrt : ℚ → ℚ) (fit : FitFun)
    (get_top_features : Dataset → List YRow → List Col)
    (train validate test : Dataset) (target : Col)
    (features_to_use features_to_scale : List Col) : RegRunResult :=
  let out := get_rolling_predictions sqrt fit get_top_features train validate test target
    features_to_use features_to_scale true
  let train_rmse := listMean ((List.range out.train_rolling_actuals.length).map
    (fun i => rmse sqrt (out.train_rolling_actuals.getD i [])
      (out.train_rolling_predictions.getD i [])))
  let validate_rmse :=
    rmse sqrt out.validate_rolling_actuals out.validate_rolling_predictions
  ⟨train_rmse, validate_rmse,
   mkValidateRes out.validate_rolling_actuals out.validate_rolling_predictions
     (colVals validate "close")⟩

/-! ### Majority-class baseline (src/model.py lines 600-611) -/

/-- A row of the classification `baseline` dataframe: close, next-day close,
the constant majority-class prediction, the `go_long` column (a copy of the
prediction column, used by `np.where` through its truthiness), and the trade
return. -/
structure BRow where
  close : ℚ
  next_day_close : Option ℚ
  predictions : ℚ
  long : ℚ
  ret : Option ℚ
deriving DecidableEq

/-- `train.fwd_close_positive.mode()[0]` on a 0/1 encoded boolean column:
pandas returns the modal values sorted ascending, so index 0 is 1 exactly
when 1 is strictly more frequent than 0 (ties give 0, i.e. False). -/
def mode01 (xs : List ℚ) : ℚ := if xs.count 1 > xs.count 0 then 1 else 0

/-- The rows of the baseline dataframe over the validate close column, with
the constant prediction `m` (src/model.py lines 601-609). -/
def baselineRows (m : ℚ) : List ℚ → List BRow
  | [] => []
  | c :: cs =>
    ⟨c, cs.head?, m, m, cs.head?.map (fun n => if m ≠ 0 then n - c else c - n)⟩ ::
      baselineRows m cs

/-- src/model.py lines 600-611: the majority-class baseline dataframe, one
row per validate row, predicting the most frequent training label
everywhere. -/
def baseline_df (train validate : Dataset) : List BRow :=
  baselineRows (mode01 (colVals train "fwd_close_positive")) (colVals validate "close")

/-! ### Conventional-split leaderboard (src/model.py lines 182-229, 354-404,
406-463) -/

/-- A leaderboard row.  A `none` in a metric column is a pandas NaN: either
the metric is undefined for the row (the regression baseline has no RMSE) or
the column did not exist in the table the row came from before the
`reg.append(class)` concatenation filled it with NaN. -/
structure LBRow where
  name : String
  avg_trade : Option ℚ
  pct_avg_trade : Option ℚ
  validate_rmse : Option ℚ
  train_rmse : Option ℚ
  validate_accuracy : Option ℚ
  train_accuracy : Option ℚ
  dropoff : Option ℚ
deriving DecidableEq

/-- The `mod+"_ret"` column of `validate_results` (lines 200-202 / 374-378):
per validate row, the realized trade return of following the model. -/
def retsOf : List ℚ → List ℚ → List (Option ℚ)
  | p :: ps, c :: cs => trade_ret (go_long p) c cs.head? :: retsOf ps cs
  | _, _ => []

/-- The `mod+"_pct_ret"` column (line 204 / 380). -/
def pctRetsOf : List ℚ → List ℚ → List (Option ℚ)
  | p :: ps, c :: cs =>
    pct_trade_ret (trade_ret (go_long p) c cs.head?) c :: pctRetsOf ps cs
  | _, _ => []

/-- `sort_values(by='pct_avg_trade', ascending=False)` comparison: larger
percent average trade first, NaN rows last. -/
def optDescLe (x y : Option ℚ) : Bool :=
  match x, y with
  | none, none => true
  | none, some _ => false
  | some _, none => true
  | some a, some b => decide (b ≤ a)

/-- Row comparison for the per-table `pct_avg_trade` descending sorts. -/
def pctDescLe (a b : LBRow) : Bool := optDescLe a.pct_avg_trade b.pct_avg_trade

/-- Insert a row into a list ordered by the comparison `le` (`le a b` means
`a` may come before `b`). -/
def insertRow (le : LBRow → LBRow → Bool) (r : LBRow) : List LBRow → List LBRow
  | [] => [r]
  | x :: xs => if le r x then r :: x :: xs else x :: insertRow le r xs

/-- `df.sort_values(...)` under the comparison `le`, as an insertion sort
(pandas guarantees only the ordering, not the permutation among ties). -/
def sortRows (le : LBRow → LBRow → Bool) : List LBRow → List LBRow
  | [] => []
  | x :: xs => insertRow le x (sortRows le xs)

/-- `df.sort_values(by='pct_avg_trade', ascending=False)`. -/
def sortByPct (rows : List LBRow) : List LBRow := sortRows pctDescLe rows

theorem mem_insertRow (le : LBRow → LBRow → Bool) (r : LBRow) :
    ∀ (l : List LBRow) (x : LBRow), x ∈ insertRow le r l → x = r ∨ x ∈ l := by
  intro l
  induction l with
  | nil =>
    intro x hx
    rw [insertRow] at hx
    exact Or.inl (List.mem_singleton.mp hx)
  | cons y ys ih =>
    intro x hx
    rw [insertRow] at hx
    by_cases h : le r y
    · rw [if_pos h] at hx
      rcases List.mem_cons.mp hx with rfl | hx2
      · exact Or.inl rfl
      · exact Or.inr hx2
    · rw [if_neg h] at hx
      rcases List.mem_cons.mp hx with rfl | hx2
      · exact Or.inr (List.mem_cons_self _ _)
      · rcases ih x hx2 with hr | hin
        · exact Or.inl hr
        · exact Or.inr (List.mem_cons_of_mem y hin)

theorem mem_sortRows (le : LBRow → LBRow → Bool) :
    ∀ (l : List LBRow) (x : LBRow), x ∈ sortRows le l → x ∈ l := by
  intro l
  induction l with
  | nil => intro x hx; exact hx
  | cons y ys ih =>
    intro x hx
    rw [sortRows] at hx
    rcases mem_insertRow le y (sortRows le ys) x hx with rfl | hx2
    · exact List.mem_cons_self _ _
    · exact List.mem_cons_of_mem y (ih x hx2)

/-- src/model.py lines 182-229 (`calculate_regression_results`), with the
sklearn fitting abstracted away: the per-model RMSE dictionaries and the
per-model validate predictions (`y_validate[mod]`) are inputs.  Produces one
row per model plus the `baseline_reg` buy-and-hold row (whose RMSE cells are
`np.nan` and whose accuracy cells do not exist), sorted by percent average
trade descending. -/
def calculate_regression_results (model_names : List String)
    (rmses_train rmses_validate : String → ℚ)
    (validate : Dataset) (y_validate : String → List ℚ) : List LBRow :=
  let closes := colVals validate "close"
  let modelRows := model_names.map (fun m =>
    ⟨m,
     nanMean (retsOf (y_validate m) closes),
     nanMean (pctRetsOf (y_validate m) closes),
     some (rmses_validate m),
     some (rmses_train m),
     none, none, none⟩)
  let baseline_reg : LBRow :=
    ⟨"baseline_reg",
     nanMean ((colVals validate "fwd_ret").map some),
     nanMean ((colVals validate "fwd_pct_chg").map some),
     none, none, none, none, none⟩
  sortByPct (modelRows ++ [baseline_reg])

/-- src/model.py lines 354-404 (`calculate_classification_results`):
analogous, with accuracies instead of RMSEs; the name `baseline` is skipped
in the model loop and the `baseline_class` row carries the train/validate
baseline accuracies. -/
def calculate_classification_results (model_names : List String)
    (accuracies_train accuracies_validate : String → ℚ)
    (validate : Dataset) (y_validate : String → List ℚ) : List LBRow :=
  let closes := colVals validate "close"
  let modelRows := (model_names.filter (fun m => m ≠ "baseline")).map (fun m =>
    ⟨m,
     nanMean (retsOf (y_validate m) closes),
     nanMean (pctRetsOf (y_validate m) closes),
     none, none,
     some (accuracies_validate m),
     some (accuracies_train m),
     none⟩)
  let baseline_class : LBRow :=
    ⟨"baseline_class",
     nanMean ((colVals validate "fwd_ret").map some),
     nanMean ((colVals validate "fwd_pct_chg").map some),
     none, none,
     some (accuracies_validate "baseline"),
     some (accuracies_train "baseline"),
     none⟩
  sortByPct (modelRows ++ [baseline_class])

/-- One asset's inputs to `conventional_split`, with the sklearn fitting of
`predict_regression` / `predict_classification` abstracted: the metric
dictionaries and the per-model validate predictions are parameters. -/
structure AssetInput where
  validate : Dataset
  reg_model_names : List String
  rmses_train : String → ℚ
  rmses_validate : String → ℚ
  reg_y_validate : String → List ℚ
  class_model_names : List String
  accuracies_train : String → ℚ
  accuracies_validate : String → ℚ
  class_y_validate : String → List ℚ

/-- The `np.select` of src/model.py lines 457-459: if `train_rmse` is NaN use
the accuracy dropoff formula, else if `train_accuracy` is NaN use the RMSE
dropoff formula, else (np.select default) 0. -/
def dropoffSelect (r : LBRow) : Option ℚ :=
  if r.train_rmse = none then
    odiv (osub r.validate_accuracy r.train_accuracy) r.train_accuracy
  else if r.train_accuracy = none then
    odiv (osub r.validate_rmse r.train_rmse) r.train_rmse
  else some 0

/-- Lines 446 and 451-454: one asset's combined table —
`reg.append(class).sort_values(by='pct_avg_trade', ascending=False)`, with the
asset key suffixed onto every row label. -/
def assetTable (k : String) (a : AssetInput) : List LBRow :=
  let regT := calculate_regression_results a.reg_model_names a.rmses_train
    a.rmses_validate a.validate a.reg_y_validate
  let classT := calculate_classification_results a.class_model_names a.accuracies_train
    a.accuracies_validate a.validate a.class_y_validate
  (sortByPct (regT ++ classT)).map (fun r => { r with name := r.name ++ "_" ++ k })

/-- src/model.py lines 406-463 (`conventional_split`), from the per-asset
tables on: concatenate the per-asset tables in key order and add the
`dropoff` column.  The globally sorted ranking of lines 460-461 is computed
as a bare expression whose value is discarded, so the function returns this
unsorted concatenation. -/
def conventional_split (split_data : List (String × AssetInput)) : List LBRow :=
  let concatenated := (split_data.map (fun ka => assetTable ka.1 ka.2)).flatten
  concatenated.map (fun r => { r with dropoff := dropoffSelect r })

/-- Row comparison for `sort_values(by=['pct_avg_trade','dropoff'],
ascending=False)`: percent average trade descending, ties broken by dropoff
descending, NaN last. -/
def pctDropoffDescLe (a b : LBRow) : Bool :=
  if a.pct_avg_trade = b.pct_avg_trade then optDescLe a.dropoff b.dropoff
  else optDescLe a.pct_avg_trade b.pct_avg_trade

/-- The ranking computed — and discarded — by the bare expression at
src/model.py lines 460-461. -/
def rankedLeaderboard (rows : List LBRow) : List LBRow :=
  (sortRows pctDropoffDescLe rows).take 10

/-! ### Rolling classification over assets (src/model.py lines 558-615,
`rolling_class_models`) -/

/-- A value stored in the `class_model_results` dict: a per-model result
table, the baseline dataframe, or a scalar accuracy. -/
inductive REntry where
  | table (rows : List RRow)
  | base (rows : List BRow)
  | accVal (a : ℚ)
deriving DecidableEq

/-- The contents of one Python dict keyed by strings, in insertion order. -/
abbrev ResultsMap := List (String × REntry)

/-- Python dict assignment `d[k] = v`: overwrite the existing entry in
place, else append a new one. -/
def pyset {α : Type} : List (String × α) → String → α → List (String × α)
  | [], k, v => [(k, v)]
  | p :: rest, k, v => if p.1 = k then (k, v) :: rest else p :: pyset rest k v

/-- Python dict read `d[k]` (as an `Option`). -/
def plookup {α : Type} : List (String × α) → String → Option α
  | [], _ => none
  | p :: rest, k => if p.1 = k then some p.2 else plookup rest k

/-- The body of the model loop of `rolling_class_models` (lines 571-611):
run the rolling predictions (feature selection disabled, as the source passes
`False`), store the model's `validate_res` table and accuracy, and store the
recomputed majority-class baseline dataframe — all into the one
`class_model_results` dict. -/
def classModelStep (sqrt : ℚ → ℚ) (get_top_features : Dataset → List YRow → List Col)
    (target : Col) (features_to_use features_to_scale : List Col)
    (train validate test : Dataset) (m : ResultsMap) (model : String × FitFun) :
    ResultsMap :=
  let out := get_rolling_predictions sqrt model.2 get_top_features train validate test target
    features_to_use features_to_scale false
  let validate_accuracy :=
    accuracy_score out.validate_rolling_actuals out.validate_rolling_predictions
  let validate_res := mkValidateRes out.validate_rolling_actuals
    out.validate_rolling_predictions (colVals validate "close")
  let m1 := pyset m model.1 (.table validate_res)
  let m2 := pyset m1 (model.1 ++ "_accuracy") (.accVal validate_accuracy)
  pyset m2 "baseline" (.base (baseline_df train validate))

/-- A heap of dict objects, addressed by allocation order; dict variables in
the Python source hold addresses, and `d[k] = other_dict` stores the address,
not a copy. -/
structure PyHeap where
  cells : List ResultsMap
deriving DecidableEq

/-- Allocate a fresh dict object. -/
def PyHeap.alloc (h : PyHeap) (v : ResultsMap) : PyHeap × Nat :=
  (⟨h.cells ++ [v]⟩, h.cells.length)

/-- Mutate the dict object at an address. -/
def PyHeap.set (h : PyHeap) (a : Nat) (v : ResultsMap) : PyHeap := ⟨h.cells.set a v⟩

/-- Read the dict object at an address. -/
def PyHeap.get (h : PyHeap) (a : Nat) : Option ResultsMap := h.cells.get? a

/-- The value `rolling_class_models` returns: the final heap and the
`all_product_class_results` mapping from asset key to the address of the
stored results dict. -/
structure ClassModelsOut where
  heap : PyHeap
  all_product_class_results : List (String × Nat)
deriving DecidableEq

/-- The body of the asset loop of `rolling_class_models` (lines 569-613):
run every model on the asset's (train, validate, test) triple, accumulating
into the results dict `m`. -/
def processAsset (sqrt : ℚ → ℚ) (get_top_features : Dataset → List YRow → List Col)
    (target : Col) (features_to_use features_to_scale : List Col)
    (class_models : List (String × FitFun)) (m : ResultsMap)
    (kd : String × (Dataset × Dataset × Dataset)) : ResultsMap :=
  class_models.foldl
    (fun m2 nf => classModelStep sqrt get_top_features target features_to_use
      features_to_scale kd.2.1 kd.2.2.1 kd.2.2.2 m2 nf) m

/-- One iteration of the asset loop acting on the Python state: mutate the
single `class_model_results` dict object (allocated first, so at address 0)
through all models of this asset, then store a reference to that same object
under the asset's key (line 613). -/
def rcmStep (sqrt : ℚ → ℚ) (get_top_features : Dataset → List YRow → List Col)
    (target : Col) (features_to_use features_to_scale : List Col)
    (class_models : List (String × FitFun))
    (acc : PyHeap × List (String × Nat))
    (kd : String × (Dataset × Dataset × Dataset)) : PyHeap × List (String × Nat) :=
  let cur := (acc.1.get 0).getD []
  (acc.1.set 0 (processAsset sqrt get_top_features target features_to_use features_to_scale
    class_models cur kd),
   pyset acc.2 kd.1 0)

/-- src/model.py lines 558-615 (`rolling_class_models`): the single
`class_model_results = {}` dict is allocated once, before the asset loop
(line 565); each asset's model loop mutates that same object, and line 613
stores a reference to it under the asset's key. -/
def rolling_class_models (sqrt : ℚ → ℚ)
    (get_top_features : Dataset → List YRow → List Col)
    (class_models : List (String × FitFun))
    (split_data : List (String × (Dataset × Dataset × Dataset)))
    (target : Col) (features_to_use features_to_scale : List Col) : ClassModelsOut :=
  let ha := PyHeap.alloc ⟨[]⟩ []
  let fin := split_data.foldl
    (rcmStep sqrt get_top_features target features_to_use features_to_scale class_models)
    (ha.1, [])
  ⟨fin.1, fin.2⟩

/-- Observing `all_product_class_results[k]` after the call returns: the
address stored under the key, dereferenced in the final heap. -/
def observeResults (out : ClassModelsOut) (k : String) : Option ResultsMap :=
  (plookup out.all_product_class_results k).bind out.heap.get

/-! ### Window lemmas -/

theorem windowAt_shift {α : Type} (w0 : List α) (v : α) (vs : List α) :
    ∀ i, windowAt w0 (v :: vs) (i + 1) = windowAt (w0.drop 1 ++ [v]) vs i := by
  intro i
  induction i with
  | zero => simp [windowAt]
  | succ n ih =>
    rw [windowAt, ih, windowAt, List.drop_succ_cons]

theorem windowAt_mem {α : Type} (w0 vs : List α) :
    ∀ (i : Nat) (r : α), r ∈ windowAt w0 vs i → r ∈ w0 ∨ r ∈ vs.take i := by
  intro i
  induction i with
  | zero => intro r hr; exact Or.inl hr
  | succ n ih =>
    intro r hr
    rw [windowAt] at hr
    have hsplit : vs.take (n + 1) = vs.take n ++ (vs.drop n).take 1 := List.take_add vs n 1
    rcases List.mem_append.mp hr with h1 | h2
    · rcases ih r (List.mem_of_mem_drop h1) with h | h
      · exact Or.inl h
      · exact Or.inr (by rw [hsplit]; exact List.mem_append.mpr (Or.inl h))
    · exact Or.inr (by rw [hsplit]; exact List.mem_append.mpr (Or.inr h2))

theorem lt_get_of_mem_take {α : Type} (f : α → Nat) :
    ∀ (l : List α), List.Pairwise (fun a b => f a < f b) l →
      ∀ (n : Nat) (hn : n < l.length) (r : α), r ∈ l.take n → f r < f (l.get ⟨n, hn⟩) := by
  intro l
  induction l with
  | nil => intro _ n hn; simp at hn
  | cons a tl ih =>
    intro hp n hn r hr
    cases n with
    | zero => simp at hr
    | succ m =>
      rw [List.take_succ_cons] at hr
      have hm : m < tl.length := by simpa using hn
      rcases List.mem_cons.mp hr with h | h
      · subst h
        have hhead := (List.pairwise_cons.mp hp).1
        simpa using hhead _ (List.get_mem tl m hm)
      · simpa using ih (List.pairwise_cons.mp hp).2 m hm r h

theorem window_ts_lt {α : Type} (f : α → Nat) (w0 vs : List α)
    (hp : List.Pairwise (fun a b => f a < f b) (w0 ++ vs))
    (i : Nat) (hi : i < vs.length) :
    ∀ r ∈ windowAt w0 vs i, f r < f (vs.get ⟨i, hi⟩) := by
  intro r hr
  rcases windowAt_mem w0 vs i r hr with h | h
  · exact (List.pairwise_append.mp hp).2.2 r h _ (List.get_mem vs i hi)
  · exact lt_get_of_mem_take f vs (List.pairwise_append.mp hp).2.1 i hi r h

theorem windowAt_closed {α : Type} (w0 vs : List α) (hw : 0 < w0.length) :
    ∀ i, i ≤ vs.length → windowAt w0 vs i = (w0 ++ vs.take i).drop i := by
  intro i
  induction i with
  | zero => simp [windowAt]
  | succ n ih =>
    intro hn
    have hn' : n ≤ vs.length := Nat.le_of_succ_le hn
    have hlen : (w0 ++ vs.take n).length = w0.length + n := by
      simp [List.length_append, List.length_take, Nat.min_eq_left hn']
    have h1 : vs.take (n + 1) = vs.take n ++ (vs.drop n).take 1 := List.take_add vs n 1
    have e2 : (w0 ++ vs.take (n + 1)).drop (n + 1) =
        (w0 ++ vs.take n).drop (n + 1) ++ (vs.drop n).take 1 := by
      rw [h1, ← List.append_assoc,
        @List.drop_append_eq_append_drop _ (w0 ++ vs.take n) ((vs.drop n).take 1) (n + 1)]
      have hz : n + 1 - (w0 ++ vs.take n).length = 0 := by omega
      rw [hz, List.drop_zero]
    rw [windowAt, ih hn', e2, List.drop_drop]

theorem windowAt_length {α : Type} (w0 vs : List α) (hw : 0 < w0.length)
    (i : Nat) (hi : i ≤ vs.length) : (windowAt w0 vs i).length = w0.length := by
  rw [windowAt_closed w0 vs hw i hi, List.length_drop, List.length_append,
    List.length_take, Nat.min_eq_left hi]
  omega

theorem rollLoop_valPreds_get (fit : FitFun) (feats : List Col) :
    ∀ (vrows : List (Row × YRow)) (xW : Dataset) (yW : List YRow) (i : Nat),
      i < vrows.length →
      (rollLoop fit feats xW yW vrows).validate_rolling_predictions.get? i =
        (vrows.get? i).map (fun v =>
          fit ((windowAt xW (vrows.map Prod.fst) i).map (fun r => feats.map r.cols))
              ((windowAt yW (vrows.map Prod.snd) i).map (fun y => y.val))
              (feats.map v.1.cols)) := by
  intro vrows
  induction vrows with
  | nil => intro xW yW i h; simp at h
  | cons v rest ih =>
    intro xW yW i h
    cases i with
    | zero => simp [rollLoop, windowAt]
    | succ n =>
      have hn : n < rest.length := by simpa using h
      show (rollLoop fit feats xW yW (v :: rest)).validate_rolling_predictions.get? (n + 1) = _
      rw [rollLoop]
      simp only [List.get?_cons_succ, List.map_cons]
      rw [ih _ _ n hn, windowAt_shift, windowAt_shift]

theorem scale_datasets_X_train_scaled (sqrt : ℚ → ℚ) (train validate test : Dataset)
    (target : Col) (fu fs : List Col) :
    (scale_datasets sqrt train validate test target fu fs).X_train_scaled =
      (standardScalerFit sqrt train).transform fs train := rfl

theorem scale_datasets_X_validate_scaled (sqrt : ℚ → ℚ) (train validate test : Dataset)
    (target : Col) (fu fs : List Col) :
    (scale_datasets sqrt train validate test target fu fs).X_validate_scaled =
      (standardScalerFit sqrt train).transform fs validate := rfl

theorem scale_datasets_X_test_scaled (sqrt : ℚ → ℚ) (train validate test : Dataset)
    (target : Col) (fu fs : List Col) :
    (scale_datasets sqrt train validate test target fu fs).X_test_scaled =
      (standardScalerFit sqrt train).transform fs test := rfl

theorem scale_datasets_y_train (sqrt : ℚ → ℚ) (train validate test : Dataset)
    (target : Col) (fu fs : List Col) :
    (scale_datasets sqrt train validate test target fu fs).y_train =
      targetFrame target train := rfl

theorem scale_datasets_y_validate (sqrt : ℚ → ℚ) (train validate test : Dataset)
    (target : Col) (fu fs : List Col) :
    (scale_datasets sqrt train validate test target fu fs).y_validate =
      targetFrame target validate := rfl

theorem transform_length (sc : FittedScaler) (fs : List Col) (d : Dataset) :
    (sc.transform fs d).length = d.length := by
  simp [FittedScaler.transform]

theorem targetFrame_length (target : Col) (d : Dataset) :
    (targetFrame target d).length = d.length := by
  simp [targetFrame]

theorem pairwise_ts_transform (sc : FittedScaler) (fs : List Col) (l1 l2 : Dataset)
    (h : List.Pairwise (fun a b : Row => a.ts < b.ts) (l1 ++ l2)) :
    List.Pairwise (fun a b : Row => a.ts < b.ts) (sc.transform fs l1 ++ sc.transform fs l2) := by
  rw [FittedScaler.transform, FittedScaler.transform, ← List.map_append, List.pairwise_map]
  exact h

theorem pairwise_ts_targetFrame (target : Col) (l1 l2 : Dataset)
    (h : List.Pairwise (fun a b : Row => a.ts < b.ts) (l1 ++ l2)) :
    List.Pairwise (fun a b : YRow => a.ts < b.ts)
      (targetFrame target l1 ++ targetFrame target l2) := by
  rw [targetFrame, targetFrame, ← List.map_append, List.pairwise_map]
  exact h

theorem transform_get_ts (sc : FittedScaler) (fs : List Col) (d : Dataset)
    (i : Nat) (hi : i < d.length) (hi' : i < (sc.transform fs d).length) :
    ((sc.transform fs d).get ⟨i, hi'⟩).ts = (d.get ⟨i, hi⟩).ts := by
  simp [FittedScaler.transform, FittedScaler.transformRow, List.get_eq_getElem]

theorem targetFrame_get_ts (target : Col) (d : Dataset)
    (i : Nat) (hi : i < d.length) (hi' : i < (targetFrame target d).length) :
    ((targetFrame target d).get ⟨i, hi'⟩).ts = (d.get ⟨i, hi⟩).ts := by
  simp [targetFrame, List.get_eq_getElem]

theorem take_one_drop {α : Type} (l : List α) (i : Nat) (h : i < l.length) :
    (l.drop i).take 1 = [l.get ⟨i, h⟩] := by
  have hd : l.drop i = l.get ⟨i, h⟩ :: l.drop (i + 1) := by
    rw [List.get_eq_getElem]
    exact List.drop_eq_getElem_cons h
  rw [hd]
  rfl

theorem transform_get (sc : FittedScaler) (fs : List Col) (d : Dataset)
    (i : Nat) (hi : i < d.length) (hi' : i < (sc.transform fs d).length) :
    (sc.transform fs d).get ⟨i, hi'⟩ = sc.transformRow fs (d.get ⟨i, hi⟩) := by
  simp [FittedScaler.transform, List.get_eq_getElem]

theorem targetFrame_get (target : Col) (d : Dataset) (i : Nat) (hi : i < d.length)
    (hi' : i < (targetFrame target d).length) :
    (targetFrame target d).get ⟨i, hi'⟩ =
      ⟨(d.get ⟨i, hi⟩).ts, (d.get ⟨i, hi⟩).cols target⟩ := by
  simp [targetFrame, List.get_eq_getElem]

/-- **C1** (no look-ahead): for every (asset, model) rolling run and every
step `i` of the walk-forward loop of `get_rolling_predictions`, assuming the
time-series frame is strictly increasing in time across Train then Validate
(the splitter's contract), every row of the feature window and of the target
window used to fit the model at step `i` has a timestamp strictly smaller
than the timestamp of Validate row `i`, the row being predicted at that
step; and the step-`i` out-of-sample prediction is indeed produced by a
model fitted on exactly that window.  No future row enters the window before
its label has been consumed. -/
theorem claim_C1_no_lookahead (sqrt : ℚ → ℚ) (fit : FitFun)
    (get_top_features : Dataset → List YRow → List Col)
    (train validate test : Dataset) (target : Col)
    (features_to_use features_to_scale : List Col) (perform_feature_selection : Bool)
    (hts : List.Pairwise (fun a b : Row => a.ts < b.ts) (train ++ validate))
    (i : Nat) (hi : i < validate.length) :
    let sd := scale_datasets sqrt train validate test target features_to_use features_to_scale
    let feats := if perform_feature_selection then get_top_features sd.X_train_scaled sd.y_train
      else features_to_use
    (∀ r ∈ windowAt sd.X_train_scaled sd.X_validate_scaled i,
      r.ts < (validate.get ⟨i, hi⟩).ts) ∧
    (∀ y ∈ windowAt sd.y_train sd.y_validate i,
      y.ts < (validate.get ⟨i, hi⟩).ts) ∧
    (get_rolling_predictions sqrt fit get_top_features train validate test target
        features_to_use features_to_scale
        perform_feature_selection).validate_rolling_predictions.get? i =
      ((sd.X_validate_scaled.zip sd.y_validate).get? i).map (fun v =>
        fit ((windowAt sd.X_train_scaled sd.X_validate_scaled i).map
              (fun r => feats.map r.cols))
            ((windowAt sd.y_train sd.y_validate i).map (fun y => y.val))
            (feats.map v.1.cols)) := by
  intro sd feats
  have hXva : sd.X_validate_scaled.length = validate.length := by
    rw [scale_datasets_X_validate_scaled, transform_length]
  have hYva : sd.y_validate.length = validate.length := by
    rw [scale_datasets_y_validate, targetFrame_length]
  have hiX : i < sd.X_validate_scaled.length := by omega
  have hiY : i < sd.y_validate.length := by omega
  have hpX : List.Pairwise (fun a b : Row => a.ts < b.ts)
      (sd.X_train_scaled ++ sd.X_validate_scaled) := by
    rw [scale_datasets_X_train_scaled, scale_datasets_X_validate_scaled]
    exact pairwise_ts_transform _ _ _ _ hts
  have hpY : List.Pairwise (fun a b : YRow => a.ts < b.ts)
      (sd.y_train ++ sd.y_validate) := by
    rw [scale_datasets_y_train, scale_datasets_y_validate]
    exact pairwise_ts_targetFrame _ _ _ hts
  have hXget : (sd.X_validate_scaled.get ⟨i, hiX⟩).ts = (validate.get ⟨i, hi⟩).ts :=
    transform_get_ts (standardScalerFit sqrt train) features_to_scale validate i hi hiX
  have hYget : (sd.y_validate.get ⟨i, hiY⟩).ts = (validate.get ⟨i, hi⟩).ts :=
    targetFrame_get_ts target validate i hi hiY
  refine ⟨?_, ?_, ?_⟩
  · intro r hr
    have := window_ts_lt Row.ts sd.X_train_scaled sd.X_validate_scaled hpX i hiX r hr
    omega
  · intro y hy
    have := window_ts_lt YRow.ts sd.y_train sd.y_validate hpY i hiY y hy
    omega
  · have hzip : i < (sd.X_validate_scaled.zip sd.y_validate).length := by
      rw [List.length_zip]
      omega
    have hfst : (sd.X_validate_scaled.zip sd.y_validate).map Prod.fst =
        sd.X_validate_scaled := by
      apply List.map_fst_zip
      omega
    have hsnd : (sd.X_validate_scaled.zip sd.y_validate).map Prod.snd =
        sd.y_validate := by
      apply List.map_snd_zip
      omega
    show (rollLoop fit feats sd.X_train_scaled sd.y_train
        (sd.X_validate_scaled.zip sd.y_validate)).validate_rolling_predictions.get? i = _
    rw [rollLoop_valPreds_get fit feats (sd.X_validate_scaled.zip sd.y_validate)
      sd.X_train_scaled sd.y_train i hzip, hfst, hsnd]

def c1Train : Dataset := [⟨0, fun _ => 1⟩, ⟨1, fun _ => 2⟩, ⟨2, fun _ => 4⟩]

def c1Validate : Dataset := [⟨3, fun _ => 8⟩, ⟨4, fun _ => 16⟩]

def c1Test : Dataset := [⟨5, fun _ => 32⟩]

def cFitZero : FitFun := fun _ _ _ => 0

def cSelectAll : Dataset → List YRow → List Col := fun _ _ => ["f"]

/-- Witness for C1: the timestamp hypothesis holds on a concrete run and the
instantiated conclusion follows by applying the theorem. -/
theorem claim_C1_no_lookahead_witness :
    (List.Pairwise (fun a b : Row => a.ts < b.ts) (c1Train ++ c1Validate) ∧
      1 < c1Validate.length) ∧
    (let sd := scale_datasets id c1Train c1Validate c1Test "f" ["f"] ["f"]
     let feats := if true then cSelectAll sd.X_train_scaled sd.y_train else ["f"]
     (∀ r ∈ windowAt sd.X_train_scaled sd.X_validate_scaled 1,
       r.ts < (c1Validate.get ⟨1, by decide⟩).ts) ∧
     (∀ y ∈ windowAt sd.y_train sd.y_validate 1,
       y.ts < (c1Validate.get ⟨1, by decide⟩).ts) ∧
     (get_rolling_predictions id cFitZero cSelectAll c1Train c1Validate c1Test "f"
         ["f"] ["f"] true).validate_rolling_predictions.get? 1 =
       ((sd.X_validate_scaled.zip sd.y_validate).get? 1).map (fun v =>
         cFitZero ((windowAt sd.X_train_scaled sd.X_validate_scaled 1).map
               (fun r => feats.map r.cols))
             ((windowAt sd.y_train sd.y_validate 1).map (fun y => y.val))
             (feats.map v.1.cols))) :=
  ⟨⟨by decide, by decide⟩,
    claim_C1_no_lookahead id cFitZero cSelectAll c1Train c1Validate c1Test "f"
      ["f"] ["f"] true (by decide) 1 (by decide)⟩

/-- **C2** (fixed window length): in a rolling run with a nonempty Train
segment, the feature and target windows have length `|Train|` at every step
(before and after every advance), and each advance drops exactly the oldest
window row and appends exactly the just-predicted Validate row's scaled
features and true target. -/
theorem claim_C2_fixed_window_length (sqrt : ℚ → ℚ)
    (train validate test : Dataset) (target : Col)
    (features_to_use features_to_scale : List Col)
    (htrain : 0 < train.length)
    (i : Nat) (hi : i ≤ validate.length) :
    let sd := scale_datasets sqrt train validate test target features_to_use features_to_scale
    (windowAt sd.X_train_scaled sd.X_validate_scaled i).length = train.length ∧
    (windowAt sd.y_train sd.y_validate i).length = train.length ∧
    (∀ hlt : i < validate.length,
      windowAt sd.X_train_scaled sd.X_validate_scaled (i + 1) =
        (windowAt sd.X_train_scaled sd.X_validate_scaled i).drop 1 ++
          [(standardScalerFit sqrt train).transformRow features_to_scale
            (validate.get ⟨i, hlt⟩)] ∧
      windowAt sd.y_train sd.y_validate (i + 1) =
        (windowAt sd.y_train sd.y_validate i).drop 1 ++
          [⟨(validate.get ⟨i, hlt⟩).ts, (validate.get ⟨i, hlt⟩).cols target⟩]) := by
  intro sd
  have hXtr : sd.X_train_scaled.length = train.length := by
    rw [scale_datasets_X_train_scaled, transform_length]
  have hYtr : sd.y_train.length = train.length := by
    rw [scale_datasets_y_train, targetFrame_length]
  have hXva : sd.X_validate_scaled.length = validate.length := by
    rw [scale_datasets_X_validate_scaled, transform_length]
  have hYva : sd.y_validate.length = validate.length := by
    rw [scale_datasets_y_validate, targetFrame_length]
  refine ⟨?_, ?_, ?_⟩
  · rw [windowAt_length _ _ (by omega) i (by omega)]
    omega
  · rw [windowAt_length _ _ (by omega) i (by omega)]
    omega
  · intro hlt
    have hiX : i < sd.X_validate_scaled.length := by omega
    have hiY : i < sd.y_validate.length := by omega
    constructor
    · rw [windowAt]
      congr 1
      rw [take_one_drop _ _ hiX]
      exact congrArg (fun x => [x])
        (transform_get (standardScalerFit sqrt train) features_to_scale validate i hlt hiX)
    · rw [windowAt]
      congr 1
      rw [take_one_drop _ _ hiY]
      exact congrArg (fun x => [x]) (targetFrame_get target validate i hlt hiY)

/-- Witness for C2: a run with `|Train| = 3`, `|Validate| = 2`, checked at
the step boundary `i = 1`. -/
theorem claim_C2_fixed_window_length_witness :
    (0 < c1Train.length ∧ 1 ≤ c1Validate.length) ∧
    (let sd := scale_datasets id c1Train c1Validate c1Test "f" ["f"] ["f"]
     (windowAt sd.X_train_scaled sd.X_validate_scaled 1).length = c1Train.length ∧
     (windowAt sd.y_train sd.y_validate 1).length = c1Train.length ∧
     (∀ hlt : 1 < c1Validate.length,
       windowAt sd.X_train_scaled sd.X_validate_scaled 2 =
         (windowAt sd.X_train_scaled sd.X_validate_scaled 1).drop 1 ++
           [(standardScalerFit id c1Train).transformRow ["f"]
             (c1Validate.get ⟨1, hlt⟩)] ∧
       windowAt sd.y_train sd.y_validate 2 =
         (windowAt sd.y_train sd.y_validate 1).drop 1 ++
           [⟨(c1Validate.get ⟨1, hlt⟩).ts, (c1Validate.get ⟨1, hlt⟩).cols "f"⟩])) :=
  ⟨⟨by decide, by decide⟩,
    claim_C2_fixed_window_length id c1Train c1Validate c1Test "f" ["f"] ["f"]
      (by decide) 1 (by decide)⟩

theorem mkValidateRes_mem :
    ∀ (as ps cs : List ℚ) (r : RRow), r ∈ mkValidateRes as ps cs →
      r.long = go_long r.predictions ∧
      r.ret = trade_ret r.long r.close r.next_day_close ∧
      r.pct_ret = pct_trade_ret r.ret r.close := by
  intro as
  induction as with
  | nil => intro ps cs r hr; simp [mkValidateRes] at hr
  | cons a as ih =>
    intro ps cs r hr
    match ps, cs with
    | [], _ => simp [mkValidateRes] at hr
    | _ :: _, [] => simp [mkValidateRes] at hr
    | p :: ps, c :: cs =>
      rw [mkValidateRes] at hr
      rcases List.mem_cons.mp hr with h | h
      · subst h
        exact ⟨rfl, rfl, rfl⟩
      · exact ih ps cs r h

/-- **C3** (trade conversion): in every per-step result row built by the
rolling engines, `go_long` holds iff the prediction is positive (and on a 0/1
encoded boolean classification prediction the comparison is the prediction
itself), the trade return is `next_close - close` when long and
`close - next_close` otherwise, and the percent trade return is the trade
return divided by close; in particular `close = 100`, `next_close = 105`,
`prediction = +0.02` gives `(True, 5, 0.05)` and `prediction = -0.01` gives
`(False, -5)`. -/
theorem claim_C3_trade_conversion :
    (∀ p : ℚ, go_long p = true ↔ 0 < p) ∧
    (∀ b : Bool, go_long (if b then 1 else 0) = b) ∧
    (∀ (gl : Bool) (close n : ℚ),
      trade_ret gl close (some n) = some (if gl then n - close else close - n)) ∧
    (∀ (close x : ℚ), pct_trade_ret (some x) close = some (x / close)) ∧
    (∀ (as ps cs : List ℚ), ∀ r ∈ mkValidateRes as ps cs,
      r.long = go_long r.predictions ∧
      r.ret = trade_ret r.long r.close r.next_day_close ∧
      r.pct_ret = pct_trade_ret r.ret r.close) ∧
    (go_long (2 / 100) = true ∧
      trade_ret (go_long (2 / 100)) 100 (some 105) = some 5 ∧
      pct_trade_ret (trade_ret (go_long (2 / 100)) 100 (some 105)) 100 = some (5 / 100)) ∧
    (go_long (-1 / 100) = false ∧
      trade_ret (go_long (-1 / 100)) 100 (some 105) = some (-5)) := by
  refine ⟨?_, ?_, ?_, ?_, mkValidateRes_mem, by decide, by decide⟩
  · intro p
    simp [go_long]
  · intro b
    cases b <;> decide
  · intro gl close n
    rfl
  · intro close x
    rfl

/-- Witness for C3: the first row of a concrete two-step result table
satisfies the row-level trade-conversion equations. -/
theorem claim_C3_trade_conversion_witness :
    ((⟨1, 2, 100, some 105, true, some 5, some (5 / 100)⟩ : RRow) ∈
      mkValidateRes [1, 0] [2, -1] [100, 105]) ∧
    ((⟨1, 2, 100, some 105, true, some 5, some (5 / 100)⟩ : RRow).long =
        go_long (⟨1, 2, 100, some 105, true, some 5, some (5 / 100)⟩ : RRow).predictions ∧
      (⟨1, 2, 100, some 105, true, some 5, some (5 / 100)⟩ : RRow).ret =
        trade_ret (⟨1, 2, 100, some 105, true, some 5, some (5 / 100)⟩ : RRow).long
          (⟨1, 2, 100, some 105, true, some 5, some (5 / 100)⟩ : RRow).close
          (⟨1, 2, 100, some 105, true, some 5, some (5 / 100)⟩ : RRow).next_day_close ∧
      (⟨1, 2, 100, some 105, true, some 5, some (5 / 100)⟩ : RRow).pct_ret =
        pct_trade_ret (⟨1, 2, 100, some 105, true, some 5, some (5 / 100)⟩ : RRow).ret
          (⟨1, 2, 100, some 105, true, some 5, some (5 / 100)⟩ : RRow).close) :=
  ⟨by decide,
    claim_C3_trade_conversion.2.2.2.2.1 [1, 0] [2, -1] [100, 105] _ (by decide)⟩

instance {ε α : Type} [DecidableEq ε] [DecidableEq α] : DecidableEq (Except ε α) := fun a b =>
  match a, b with
  | .ok x, .ok y => decidable_of_iff (x = y) (by simp)
  | .error x, .error y => decidable_of_iff (x = y) (by simp)
  | .ok _, .error _ => isFalse (by simp)
  | .error _, .ok _ => isFalse (by simp)

/-- A per-order evaluation in which the combination `(0,0,0)` raises an
ordinary exception and every other combination succeeds. -/
def arimaEvalFailing : Nat × Nat × Nat → ArimaOutcome :=
  fun o => if o = (0, 0, 0) then .exc else .ok 1 [2] [3]

/-- A per-order evaluation in which the combination `(0,0,0)` raises
`KeyboardInterrupt`. -/
def arimaEvalInterrupting : Nat × Nat × Nat → ArimaOutcome :=
  fun o => if o = (0, 0, 0) then .interrupt else .ok 1 [2] [3]

/-- A per-order evaluation in which every combination succeeds. -/
def arimaEvalOk : Nat × Nat × Nat → ArimaOutcome :=
  fun _ => .ok 1 [2] [3]

/-- **C4** (code bug): the claim says a failing `(p, d, q)` combination is
caught, logged and skipped, and surfaces as an absent row of the returned
result table.  The sweep does continue, but `orders.append(order)` happens
before the `try`, so after any failure `orders` is longer than `mses` and
the construction of `results_df` raises `ValueError` instead of returning a
table — the whole grid search crashes after finishing the sweep.  A
`KeyboardInterrupt` is re-raised immediately as claimed, and a fully
successful sweep returns the complete table. -/
theorem claim_C4_grid_search_failure :
    evaluate_models arimaEvalFailing [0] [0] [0, 1] = .error .valueError ∧
    evaluate_models arimaEvalInterrupting [0] [0] [0, 1] = .error .keyboardInterrupt ∧
    evaluate_models arimaEvalOk [0] [0] [0, 1] =
      .ok ⟨[(0, 0, 0), (0, 0, 1)], [1, 1], [[3], [3]], [[2], [2]]⟩ := by
  decide

theorem rollLoop_lengths (fit : FitFun) (feats : List Col) :
    ∀ (vrows : List (Row × YRow)) (xW : Dataset) (yW : List YRow),
      (rollLoop fit feats xW yW vrows).train_rolling_predictions.length = vrows.length ∧
      (rollLoop fit feats xW yW vrows).train_rolling_actuals.length = vrows.length ∧
      (rollLoop fit feats xW yW vrows).validate_rolling_predictions.length = vrows.length ∧
      (rollLoop fit feats xW yW vrows).validate_rolling_actuals.length = vrows.length := by
  intro vrows
  induction vrows with
  | nil => intro xW yW; simp [rollLoop]
  | cons v rest ih =>
    intro xW yW
    obtain ⟨h1, h2, h3, h4⟩ := ih (xW.drop 1 ++ [v.1]) (yW.drop 1 ++ [v.2])
    refine ⟨?_, ?_, ?_, ?_⟩ <;> simp only [rollLoop, List.length_cons] <;> omega

theorem get_rolling_predictions_lengths (sqrt : ℚ → ℚ) (fit : FitFun)
    (get_top_features : Dataset → List YRow → List Col)
    (train validate test : Dataset) (target : Col)
    (features_to_use features_to_scale : List Col) (perform_feature_selection : Bool) :
    (get_rolling_predictions sqrt fit get_top_features train validate test target
        features_to_use features_to_scale
        perform_feature_selection).train_rolling_predictions.length = validate.length ∧
    (get_rolling_predictions sqrt fit get_top_features train validate test target
        features_to_use features_to_scale
        perform_feature_selection).train_rolling_actuals.length = validate.length ∧
    (get_rolling_predictions sqrt fit get_top_features train validate test target
        features_to_use features_to_scale
        perform_feature_selection).validate_rolling_predictions.length = validate.length ∧
    (get_rolling_predictions sqrt fit get_top_features train validate test target
        features_to_use features_to_scale
        perform_feature_selection).validate_rolling_actuals.length = validate.length := by
  have hz : (((scale_datasets sqrt train validate test target features_to_use
      features_to_scale).X_validate_scaled).zip
        ((scale_datasets sqrt train validate test target features_to_use
          features_to_scale).y_validate)).length = validate.length := by
    rw [List.length_zip, scale_datasets_X_validate_scaled, scale_datasets_y_validate,
      transform_length, targetFrame_length]
    exact Nat.min_self _
  have h := rollLoop_lengths fit
    (if perform_feature_selection then
      get_top_features
        (scale_datasets sqrt train validate test target features_to_use
          features_to_scale).X_train_scaled
        (scale_datasets sqrt train validate test target features_to_use
          features_to_scale).y_train
     else features_to_use)
    (((scale_datasets sqrt train validate test target features_to_use
      features_to_scale).X_validate_scaled).zip
        ((scale_datasets sqrt train validate test target features_to_use
          features_to_scale).y_validate))
    (scale_datasets sqrt train validate test target features_to_use
      features_to_scale).X_train_scaled
    (scale_datasets sqrt train validate test target features_to_use
      features_to_scale).y_train
  rw [hz] at h
  exact h

theorem mkValidateRes_spec :
    ∀ (as ps cs : List ℚ), as.length = ps.length → ps.length = cs.length →
      (mkValidateRes as ps cs).map RRow.actual = as ∧
      (mkValidateRes as ps cs).map RRow.predictions = ps ∧
      (mkValidateRes as ps cs).length = as.length := by
  intro as
  induction as with
  | nil =>
    intro ps cs h1 h2
    cases ps with
    | nil => simp [mkValidateRes]
    | cons p ps => simp at h1
  | cons a as ih =>
    intro ps cs h1 h2
    cases ps with
    | nil => simp at h1
    | cons p ps =>
      cases cs with
      | nil => simp at h2
      | cons c cs =>
        have h1' : as.length = ps.length := by simpa using h1
        have h2' : ps.length = cs.length := by simpa using h2
        have h := ih ps cs h1' h2'
        rw [mkValidateRes]
        simp only [List.map_cons, List.length_cons]
        exact ⟨by rw [h.1], by rw [h.2.1], by rw [h.2.2]⟩

/-- Counterexample to C7 as stated: the per-refit in-sample diagnostics are
not one per Train row — on a run with `|Train| = 3` and `|Validate| = 2`
there are 2 refit diagnostics, not 3. -/
theorem claim_C7_counterexample :
    ¬ ((get_rolling_predictions id cFitZero cSelectAll c1Train c1Validate c1Test "f"
        ["f"] ["f"] true).train_rolling_actuals.length = c1Train.length) := by
  decide

/-- **C7** (amended): on reaching the terminal state a rolling regression run
yields exactly two aggregated error numbers — the mean of the per-refit
in-sample RMSE diagnostics across all `|Validate|` refits (one refit per
validate step, not `|Train|` refits as claimed), and a single RMSE computed
once over the full ordered out-of-sample prediction sequence of length
`|Validate|` — alongside the ordered per-step prediction records. -/
theorem claim_C7_rolling_aggregates (sqrt : ℚ → ℚ) (fit : FitFun)
    (get_top_features : Dataset → List YRow → List Col)
    (train validate test : Dataset) (target : Col)
    (features_to_use features_to_scale : List Col) :
    (get_rolling_predictions sqrt fit get_top_features train validate test target
        features_to_use features_to_scale true).train_rolling_actuals.length =
      validate.length ∧
    (get_rolling_predictions sqrt fit get_top_features train validate test target
        features_to_use features_to_scale true).validate_rolling_predictions.length =
      validate.length ∧
    (get_rolling_predictions sqrt fit get_top_features train validate test target
        features_to_use features_to_scale true).validate_rolling_actuals.length =
      validate.length ∧
    (rolling_reg_run sqrt fit get_top_features train validate test target
        features_to_use features_to_scale).train_rmse =
      listMean ((List.range validate.length).map (fun i =>
        rmse sqrt
          ((get_rolling_predictions sqrt fit get_top_features train validate test target
            features_to_use features_to_scale true).train_rolling_actuals.getD i [])
          ((get_rolling_predictions sqrt fit get_top_features train validate test target
            features_to_use features_to_scale true).train_rolling_predictions.getD i []))) ∧
    (rolling_reg_run sqrt fit get_top_features train validate test target
        features_to_use features_to_scale).validate_rmse =
      rmse sqrt
        (get_rolling_predictions sqrt fit get_top_features train validate test target
          features_to_use features_to_scale true).validate_rolling_actuals
        (get_rolling_predictions sqrt fit get_top_features train validate test target
          features_to_use features_to_scale true).validate_rolling_predictions ∧
    (rolling_reg_run sqrt fit get_top_features train validate test target
        features_to_use features_to_scale).validate_res.map RRow.actual =
      (get_rolling_predictions sqrt fit get_top_features train validate test target
        features_to_use features_to_scale true).validate_rolling_actuals ∧
    (rolling_reg_run sqrt fit get_top_features train validate test target
        features_to_use features_to_scale).validate_res.map RRow.predictions =
      (get_rolling_predictions sqrt fit get_top_features train validate test target
        features_to_use features_to_scale true).validate_rolling_predictions ∧
    (rolling_reg_run sqrt fit get_top_features train validate test target
        features_to_use features_to_scale).validate_res.length = validate.length := by
  have hl := get_rolling_predictions_lengths sqrt fit get_top_features train validate test
    target features_to_use features_to_scale true
  have hcl : (colVals validate "close").length = validate.length := by
    simp [colVals]
  have hres := mkValidateRes_spec
    (get_rolling_predictions sqrt fit get_top_features train validate test target
      features_to_use features_to_scale true).validate_rolling_actuals
    (get_rolling_predictions sqrt fit get_top_features train validate test target
      features_to_use features_to_scale true).validate_rolling_predictions
    (colVals validate "close") (by omega) (by omega)
  refine ⟨hl.2.1, hl.2.2.1, hl.2.2.2, ?_, rfl, hres.1, hres.2.1, ?_⟩
  · show listMean ((List.range (get_rolling_predictions sqrt fit get_top_features train
        validate test target features_to_use features_to_scale
        true).train_rolling_actuals.length).map _) = _
    rw [hl.2.1]
  · show (mkValidateRes
        (get_rolling_predictions sqrt fit get_top_features train validate test target
          features_to_use features_to_scale true).validate_rolling_actuals
        (get_rolling_predictions sqrt fit get_top_features train validate test target
          features_to_use features_to_scale true).validate_rolling_predictions
        (colVals validate "close")).length = validate.length
    rw [hres.2.2, hl.2.2.2]

theorem baselineRows_length (m : ℚ) : ∀ cs : List ℚ, (baselineRows m cs).length = cs.length := by
  intro cs
  induction cs with
  | nil => rfl
  | cons c cs ih => simp [baselineRows, ih]

theorem baselineRows_predictions (m : ℚ) :
    ∀ cs : List ℚ, ∀ r ∈ baselineRows m cs, r.predictions = m := by
  intro cs
  induction cs with
  | nil => intro r hr; simp [baselineRows] at hr
  | cons c cs ih =>
    intro r hr
    rw [baselineRows] at hr
    rcases List.mem_cons.mp hr with h | h
    · subst h; rfl
    · exact ih r h

theorem baselineRows_get_ret (m : ℚ) :
    ∀ (cs : List ℚ) (i : Nat) (h : i < (baselineRows m cs).length),
      ((baselineRows m cs).get ⟨i, h⟩).ret =
        (cs.get? (i + 1)).map (fun n =>
          if m ≠ 0 then n - cs.getD i 0 else cs.getD i 0 - n) := by
  intro cs
  induction cs with
  | nil => intro i h; simp [baselineRows] at h
  | cons c cs ih =>
    intro i h
    cases i with
    | zero =>
      show (⟨c, cs.head?, m, m,
        cs.head?.map (fun n => if m ≠ 0 then n - c else c - n)⟩ : BRow).ret = _
      cases cs with
      | nil => rfl
      | cons c2 cs2 => rfl
    | succ n =>
      have hn : n < (baselineRows m cs).length := by
        rw [baselineRows_length] at h ⊢
        simp only [List.length_cons] at h
        omega
      have := ih n hn
      simpa using this

theorem mode01_most_frequent (xs : List ℚ) :
    xs.count (1 - mode01 xs) ≤ xs.count (mode01 xs) := by
  rw [mode01]
  split
  · rename_i h
    simpa using Nat.le_of_lt h
  · rename_i h
    simpa using Nat.le_of_not_lt h

/-- Counterexample to C9 as stated: on a concrete run with two validate rows
the baseline trade-return series contains a null entry (its final row, whose
next-day close is `shift(-1)` past the end of Validate). -/
theorem claim_C9_counterexample :
    ¬ (∀ r ∈ baseline_df
        [⟨0, fun c => if c = "fwd_close_positive" then 1 else 10⟩,
         ⟨1, fun c => if c = "fwd_close_positive" then 1 else 11⟩,
         ⟨2, fun c => if c = "fwd_close_positive" then 0 else 12⟩]
        [⟨3, fun c => if c = "close" then 100 else 1⟩,
         ⟨4, fun c => if c = "close" then 105 else 0⟩], r.ret ≠ none) := by
  intro hall
  have hmem : (⟨105, none, 1, 1, none⟩ : BRow) ∈ baseline_df
      [⟨0, fun c => if c = "fwd_close_positive" then 1 else 10⟩,
       ⟨1, fun c => if c = "fwd_close_positive" then 1 else 11⟩,
       ⟨2, fun c => if c = "fwd_close_positive" then 0 else 12⟩]
      [⟨3, fun c => if c = "close" then 100 else 1⟩,
       ⟨4, fun c => if c = "close" then 105 else 0⟩] := by
    decide
  exact hall _ hmem rfl

/-- **C9** (amended): the classification majority-class baseline predicts,
for every Validate row, the constant `train.fwd_close_positive.mode()[0]` —
a label of maximal frequency in the training set (the single most frequent
one when it is unique, False on a tie) — and its trade-return series has
exactly one row per Validate row; every entry is non-null except the final
one, which is null because the next-day close is unavailable at the last
validate row. -/
theorem claim_C9_baseline_series (train validate : Dataset) :
    (baseline_df train validate).length = validate.length ∧
    (∀ r ∈ baseline_df train validate,
      r.predictions = mode01 (colVals train "fwd_close_positive") ∧
      (colVals train "fwd_close_positive").count
          (1 - mode01 (colVals train "fwd_close_positive")) ≤
        (colVals train "fwd_close_positive").count
          (mode01 (colVals train "fwd_close_positive"))) ∧
    (∀ (i : Nat) (h : i < (baseline_df train validate).length),
      ((baseline_df train validate).get ⟨i, h⟩).ret.isSome ↔ i + 1 < validate.length) := by
  have hlen : (baseline_df train validate).length = validate.length := by
    rw [baseline_df, baselineRows_length]
    simp [colVals]
  refine ⟨hlen, ?_, ?_⟩
  · intro r hr
    exact ⟨baselineRows_predictions _ _ r hr, mode01_most_frequent _⟩
  · intro i h
    show ((baselineRows (mode01 (colVals train "fwd_close_positive"))
      (colVals validate "close")).get ⟨i, h⟩).ret.isSome ↔ i + 1 < validate.length
    rw [baselineRows_get_ret]
    have hcl : (colVals validate "close").length = validate.length := by simp [colVals]
    constructor
    · intro hs
      rcases Option.isSome_iff_exists.mp (Option.isSome_map .. ▸ hs) with ⟨n, hn⟩
      have : i + 1 < (colVals validate "close").length := by
        by_contra hge
        rw [List.get?_eq_none.mpr (by omega)] at hn
        simp at hn
      omega
    · intro hlt
      have : (colVals validate "close").get? (i + 1) =
          some ((colVals validate "close").get ⟨i + 1, by omega⟩) :=
        List.get?_eq_get (by omega)
      rw [this]
      simp

/-- Witness for C9: the amended statement instantiated on the concrete
three-row train and two-row validate data. -/
theorem claim_C9_baseline_series_witness :
    ((⟨100, some 105, 1, 1, some 5⟩ : BRow) ∈ baseline_df
      [⟨0, fun c => if c = "fwd_close_positive" then 1 else 10⟩,
       ⟨1, fun c => if c = "fwd_close_positive" then 1 else 11⟩,
       ⟨2, fun c => if c = "fwd_close_positive" then 0 else 12⟩]
      [⟨3, fun c => if c = "close" then 100 else 1⟩,
       ⟨4, fun c => if c = "close" then 105 else 0⟩]) ∧
    ((⟨100, some 105, 1, 1, some 5⟩ : BRow).predictions =
      mode01 (colVals
        [⟨0, fun c => if c = "fwd_close_positive" then 1 else 10⟩,
         ⟨1, fun c => if c = "fwd_close_positive" then 1 else 11⟩,
         ⟨2, fun c => if c = "fwd_close_positive" then 0 else 12⟩]
        "fwd_close_positive") ∧
      (colVals
        [⟨0, fun c => if c = "fwd_close_positive" then 1 else 10⟩,
         ⟨1, fun c => if c = "fwd_close_positive" then 1 else 11⟩,
         ⟨2, fun c => if c = "fwd_close_positive" then 0 else 12⟩]
        "fwd_close_positive").count
          (1 - mode01 (colVals
            [⟨0, fun c => if c = "fwd_close_positive" then 1 else 10⟩,
             ⟨1, fun c => if c = "fwd_close_positive" then 1 else 11⟩,
             ⟨2, fun c => if c = "fwd_close_positive" then 0 else 12⟩]
            "fwd_close_positive")) ≤
        (colVals
          [⟨0, fun c => if c = "fwd_close_positive" then 1 else 10⟩,
           ⟨1, fun c => if c = "fwd_close_positive" then 1 else 11⟩,
           ⟨2, fun c => if c = "fwd_close_positive" then 0 else 12⟩]
          "fwd_close_positive").count
          (mode01 (colVals
            [⟨0, fun c => if c = "fwd_close_positive" then 1 else 10⟩,
             ⟨1, fun c => if c = "fwd_close_positive" then 1 else 11⟩,
             ⟨2, fun c => if c = "fwd_close_positive" then 0 else 12⟩]
            "fwd_close_positive"))) :=
  ⟨by decide,
    (claim_C9_baseline_series
      [⟨0, fun c => if c = "fwd_close_positive" then 1 else 10⟩,
       ⟨1, fun c => if c = "fwd_close_positive" then 1 else 11⟩,
       ⟨2, fun c => if c = "fwd_close_positive" then 0 else 12⟩]
      [⟨3, fun c => if c = "close" then 100 else 1⟩,
       ⟨4, fun c => if c = "close" then 105 else 0⟩]).2.1
      (⟨100, some 105, 1, 1, some 5⟩ : BRow) (by decide)⟩

theorem transform_get?_col (sc : FittedScaler) (fs : List Col) (d : Dataset)
    (i : Nat) (c : Col) :
    ((sc.transform fs d).get? i).map (fun r => r.cols c) =
      (d.get? i).map (fun r =>
        if c ∈ fs then (r.cols c - sc.mean c) / sc.scale c else r.cols c) := by
  rw [FittedScaler.transform, List.get?_map, Option.map_map]
  rfl

/-- **C5** (leakage-free scaling): `scale_datasets` computes, for each column
in `features_to_scale`, mean and standard deviation from Train only and
applies `(x - mean)/std` with those same fitted statistics to Train,
Validate and Test; every column of `features_to_use` not in
`features_to_scale` passes through unchanged in all three outputs; and the
train-fitted statistics (hence the scaled Train output) are the same
whatever Validate and Test are — transforming them never refits or alters
the fitted mean/std. -/
theorem claim_C5_scale_datasets (sqrt : ℚ → ℚ) (train validate test : Dataset)
    (target : Col) (features_to_use features_to_scale : List Col) :
    (∀ (i : Nat) (c : Col), c ∈ features_to_scale →
      ((scale_datasets sqrt train validate test target features_to_use
          features_to_scale).X_train_scaled.get? i).map (fun r => r.cols c) =
        (train.get? i).map (fun r =>
          (r.cols c - listMean (colVals train c)) / sqrt (listVar (colVals train c))) ∧
      ((scale_datasets sqrt train validate test target features_to_use
          features_to_scale).X_validate_scaled.get? i).map (fun r => r.cols c) =
        (validate.get? i).map (fun r =>
          (r.cols c - listMean (colVals train c)) / sqrt (listVar (colVals train c))) ∧
      ((scale_datasets sqrt train validate test target features_to_use
          features_to_scale).X_test_scaled.get? i).map (fun r => r.cols c) =
        (test.get? i).map (fun r =>
          (r.cols c - listMean (colVals train c)) / sqrt (listVar (colVals train c)))) ∧
    (∀ (i : Nat) (c : Col), c ∈ features_to_use → c ∉ features_to_scale →
      ((scale_datasets sqrt train validate test target features_to_use
          features_to_scale).X_train_scaled.get? i).map (fun r => r.cols c) =
        (train.get? i).map (fun r => r.cols c) ∧
      ((scale_datasets sqrt train validate test target features_to_use
          features_to_scale).X_validate_scaled.get? i).map (fun r => r.cols c) =
        (validate.get? i).map (fun r => r.cols c) ∧
      ((scale_datasets sqrt train validate test target features_to_use
          features_to_scale).X_test_scaled.get? i).map (fun r => r.cols c) =
        (test.get? i).map (fun r => r.cols c)) ∧
    (∀ validate2 test2 : Dataset,
      (scale_datasets sqrt train validate2 test2 target features_to_use
          features_to_scale).X_train_scaled =
        (scale_datasets sqrt train validate test target features_to_use
          features_to_scale).X_train_scaled) := by
  refine ⟨?_, ?_, ?_⟩
  · intro i c hc
    refine ⟨?_, ?_, ?_⟩
    · rw [scale_datasets_X_train_scaled, transform_get?_col]
      rcases hd : train.get? i with _ | r <;> simp [hc, standardScalerFit]
    · rw [scale_datasets_X_validate_scaled, transform_get?_col]
      rcases hd : validate.get? i with _ | r <;> simp [hc, standardScalerFit]
    · rw [scale_datasets_X_test_scaled, transform_get?_col]
      rcases hd : test.get? i with _ | r <;> simp [hc, standardScalerFit]
  · intro i c _ hc
    refine ⟨?_, ?_, ?_⟩
    · rw [scale_datasets_X_train_scaled, transform_get?_col]
      rcases hd : train.get? i with _ | r <;> simp [hc]
    · rw [scale_datasets_X_validate_scaled, transform_get?_col]
      rcases hd : validate.get? i with _ | r <;> simp [hc]
    · rw [scale_datasets_X_test_scaled, transform_get?_col]
      rcases hd : test.get? i with _ | r <;> simp [hc]
  · intro validate2 test2
    rfl

def c5Train : Dataset :=
  [⟨0, fun c => if c = "a" then 1 else 5⟩, ⟨1, fun c => if c = "a" then 3 else 7⟩]

def c5Validate : Dataset := [⟨2, fun c => if c = "a" then 9 else 11⟩]

def c5Test : Dataset := [⟨3, fun c => if c = "a" then 13 else 17⟩]

/-- Witness for C5: on concrete data, column `a` of Validate is scaled with
the Train-fitted statistics and column `b` passes through unchanged. -/
theorem claim_C5_scale_datasets_witness :
    (("a" : Col) ∈ ["a"] ∧ ("b" : Col) ∈ ["a", "b"] ∧ ("b" : Col) ∉ ["a"]) ∧
    (((scale_datasets id c5Train c5Validate c5Test "t" ["a", "b"]
          ["a"]).X_train_scaled.get? 0).map (fun r => r.cols "a") =
        (c5Train.get? 0).map (fun r =>
          (r.cols "a" - listMean (colVals c5Train "a")) /
            id (listVar (colVals c5Train "a"))) ∧
      ((scale_datasets id c5Train c5Validate c5Test "t" ["a", "b"]
          ["a"]).X_validate_scaled.get? 0).map (fun r => r.cols "a") =
        (c5Validate.get? 0).map (fun r =>
          (r.cols "a" - listMean (colVals c5Train "a")) /
            id (listVar (colVals c5Train "a"))) ∧
      ((scale_datasets id c5Train c5Validate c5Test "t" ["a", "b"]
          ["a"]).X_test_scaled.get? 0).map (fun r => r.cols "a") =
        (c5Test.get? 0).map (fun r =>
          (r.cols "a" - listMean (colVals c5Train "a")) /
            id (listVar (colVals c5Train "a")))) ∧
    (((scale_datasets id c5Train c5Validate c5Test "t" ["a", "b"]
          ["a"]).X_train_scaled.get? 0).map (fun r => r.cols "b") =
        (c5Train.get? 0).map (fun r => r.cols "b") ∧
      ((scale_datasets id c5Train c5Validate c5Test "t" ["a", "b"]
          ["a"]).X_validate_scaled.get? 0).map (fun r => r.cols "b") =
        (c5Validate.get? 0).map (fun r => r.cols "b") ∧
      ((scale_datasets id c5Train c5Validate c5Test "t" ["a", "b"]
          ["a"]).X_test_scaled.get? 0).map (fun r => r.cols "b") =
        (c5Test.get? 0).map (fun r => r.cols "b")) :=
  ⟨⟨by decide, by decide, by decide⟩,
    (claim_C5_scale_datasets id c5Train c5Validate c5Test "t" ["a", "b"] ["a"]).1
      0 "a" (by decide),
    (claim_C5_scale_datasets id c5Train c5Validate c5Test "t" ["a", "b"] ["a"]).2.1
      0 "b" (by decide) (by decide)⟩

theorem plookup_pyset {α : Type} :
    ∀ (ap : List (String × α)) (k k' : String) (v : α),
      plookup (pyset ap k v) k' = if k' = k then some v else plookup ap k' := by
  intro ap
  induction ap with
  | nil =>
    intro k k' v
    by_cases h : k' = k
    · subst h
      simp [pyset, plookup]
    · have h' : ¬k = k' := fun hh => h hh.symm
      simp [pyset, plookup, h, h']
  | cons p rest ih =>
    intro k k' v
    rw [pyset]
    by_cases h1 : p.1 = k
    · rw [if_pos h1]
      by_cases h2 : k' = k
      · subst h2
        rw [if_pos rfl, plookup, if_pos rfl]
      · have hkk : ¬k = k' := fun hh => h2 hh.symm
        have hp : ¬p.1 = k' := by rw [h1]; exact hkk
        rw [plookup, if_neg hkk, if_neg h2, plookup, if_neg hp]
    · rw [if_neg h1, plookup]
      by_cases h2 : p.1 = k'
      · have hk'k : ¬k' = k := fun hh => h1 (h2.trans hh)
        rw [if_pos h2, if_neg hk'k, plookup, if_pos h2]
      · rw [if_neg h2, ih, plookup, if_neg h2]

theorem pyset_values {α : Type} (P : α → Prop) :
    ∀ (ap : List (String × α)) (k : String) (v : α),
      (∀ e ∈ ap, P e.2) → P v → ∀ e ∈ pyset ap k v, P e.2 := by
  intro ap
  induction ap with
  | nil =>
    intro k v _ hv e he
    rw [pyset] at he
    rcases List.mem_singleton.mp he with rfl
    exact hv
  | cons p rest ih =>
    intro k v hap hv e he
    rw [pyset] at he
    by_cases h1 : p.1 = k
    · rw [if_pos h1] at he
      rcases List.mem_cons.mp he with rfl | h
      · exact hv
      · exact hap e (List.mem_cons_of_mem p h)
    · rw [if_neg h1] at he
      rcases List.mem_cons.mp he with rfl | h
      · exact hap _ (List.mem_cons_self _ _)
      · exact ih k v (fun x hx => hap x (List.mem_cons_of_mem p hx)) hv e h

theorem rcm_fold (sqrt : ℚ → ℚ) (get_top_features : Dataset → List YRow → List Col)
    (class_models : List (String × FitFun)) (target : Col)
    (features_to_use features_to_scale : List Col) :
    ∀ (split : List (String × (Dataset × Dataset × Dataset))) (A : ResultsMap)
      (ap : List (String × Nat)), (∀ e ∈ ap, e.2 = 0) →
      (split.foldl
          (rcmStep sqrt get_top_features target features_to_use features_to_scale
            class_models) (⟨[A]⟩, ap)).1.cells =
        [split.foldl
          (processAsset sqrt get_top_features target features_to_use features_to_scale
            class_models) A] ∧
      (∀ e ∈ (split.foldl
          (rcmStep sqrt get_top_features target features_to_use features_to_scale
            class_models) (⟨[A]⟩, ap)).2, e.2 = 0) ∧
      (∀ k, k ∈ split.map Prod.fst →
        plookup (split.foldl
          (rcmStep sqrt get_top_features target features_to_use features_to_scale
            class_models) (⟨[A]⟩, ap)).2 k = some 0) ∧
      (∀ k, plookup ap k = some 0 →
        plookup (split.foldl
          (rcmStep sqrt get_top_features target features_to_use features_to_scale
            class_models) (⟨[A]⟩, ap)).2 k = some 0) := by
  intro split
  induction split with
  | nil =>
    intro A ap hap
    exact ⟨rfl, hap, by simp, fun k hk => hk⟩
  | cons kd rest ih =>
    intro A ap hap
    have hap2 : ∀ e ∈ pyset ap kd.1 0, e.2 = 0 :=
      pyset_values (fun x => x = 0) ap kd.1 0 hap rfl
    have h := ih (processAsset sqrt get_top_features target features_to_use
      features_to_scale class_models A kd) (pyset ap kd.1 0) hap2
    refine ⟨h.1, h.2.1, ?_, ?_⟩
    · intro k hk
      rw [List.map_cons] at hk
      rcases List.mem_cons.mp hk with rfl | hkr
      · apply h.2.2.2
        rw [plookup_pyset]
        simp
      · exact h.2.2.1 k hkr
    · intro k hk
      apply h.2.2.2
      rw [plookup_pyset]
      split
      · rfl
      · exact hk

/-- **C10** (shared results dict): in `rolling_class_models` the per-model
results dictionary is created once before the per-asset loop, so for any two
asset keys `k1` and `k2` of the input, the returned mapping assigns them the
very same results object — the dict holding the tables and accuracies
accumulated while processing every asset, not just the keyed asset's own. -/
theorem claim_C10_shared_results_dict (sqrt : ℚ → ℚ)
    (get_top_features : Dataset → List YRow → List Col)
    (class_models : List (String × FitFun))
    (split_data : List (String × (Dataset × Dataset × Dataset)))
    (target : Col) (features_to_use features_to_scale : List Col) (k1 k2 : String)
    (h1 : k1 ∈ split_data.map Prod.fst) (h2 : k2 ∈ split_data.map Prod.fst) :
    observeResults (rolling_class_models sqrt get_top_features class_models split_data
      target features_to_use features_to_scale) k1 =
      observeResults (rolling_class_models sqrt get_top_features class_models split_data
        target features_to_use features_to_scale) k2 ∧
    observeResults (rolling_class_models sqrt get_top_features class_models split_data
      target features_to_use features_to_scale) k1 =
      some (split_data.foldl
        (processAsset sqrt get_top_features target features_to_use features_to_scale
          class_models) []) := by
  have h := rcm_fold sqrt get_top_features class_models target features_to_use
    features_to_scale split_data [] [] (by simp)
  have hobs : ∀ k, k ∈ split_data.map Prod.fst →
      observeResults (rolling_class_models sqrt get_top_features class_models split_data
        target features_to_use features_to_scale) k =
        some (split_data.foldl
          (processAsset sqrt get_top_features target features_to_use features_to_scale
            class_models) []) := by
    intro k hk
    show ((plookup (split_data.foldl
        (rcmStep sqrt get_top_features target features_to_use features_to_scale
          class_models) (⟨[[]]⟩, [])).2 k).bind
      (split_data.foldl
        (rcmStep sqrt get_top_features target features_to_use features_to_scale
          class_models) (⟨[[]]⟩, [])).1.get) = _
    rw [h.2.2.1 k hk]
    show (split_data.foldl
        (rcmStep sqrt get_top_features target features_to_use features_to_scale
          class_models) (⟨[[]]⟩, [])).1.cells.get? 0 = _
    rw [h.1]
    rfl
  rw [hobs k1 h1, hobs k2 h2]
  exact ⟨rfl, rfl⟩

def c10SplitData : List (String × (Dataset × Dataset × Dataset)) :=
  [("BTC", (c1Train, c1Validate, c1Test)), ("ETH", (c1Validate, c1Train, c1Test))]

/-- Witness for C10: with two concrete assets, both keys observe the very
same fully accumulated results dict. -/
theorem claim_C10_shared_results_dict_witness :
    ("BTC" ∈ c10SplitData.map Prod.fst ∧ "ETH" ∈ c10SplitData.map Prod.fst) ∧
    (observeResults (rolling_class_models id cSelectAll [("m", cFitZero)] c10SplitData
        "f" ["f"] ["f"]) "BTC" =
      observeResults (rolling_class_models id cSelectAll [("m", cFitZero)] c10SplitData
        "f" ["f"] ["f"]) "ETH" ∧
     observeResults (rolling_class_models id cSelectAll [("m", cFitZero)] c10SplitData
        "f" ["f"] ["f"]) "BTC" =
      some (c10SplitData.foldl
        (processAsset id cSelectAll "f" ["f"] ["f"] [("m", cFitZero)]) [])) :=
  ⟨⟨by decide, by decide⟩,
    claim_C10_shared_results_dict id cSelectAll [("m", cFitZero)] c10SplitData
      "f" ["f"] ["f"] "BTC" "ETH" (by decide) (by decide)⟩

theorem calc_reg_shape (model_names : List String) (rmses_train rmses_validate : String → ℚ)
    (validate : Dataset) (y_validate : String → List ℚ) :
    ∀ r ∈ calculate_regression_results model_names rmses_train rmses_validate validate
        y_validate,
      (r.train_rmse.isSome ∧ r.train_accuracy = none ∧ r.validate_accuracy = none) ∨
      (r.name = "baseline_reg" ∧ r.train_rmse = none ∧ r.train_accuracy = none) := by
  intro r hr
  simp only [calculate_regression_results, sortByPct] at hr
  rcases List.mem_append.mp (mem_sortRows _ _ _ hr) with h | h
  · rcases List.mem_map.mp h with ⟨m, _, rfl⟩
    left
    exact ⟨rfl, rfl, rfl⟩
  · rcases List.mem_singleton.mp h with rfl
    right
    exact ⟨rfl, rfl, rfl⟩

theorem calc_class_shape (model_names : List String)
    (accuracies_train accuracies_validate : String → ℚ)
    (validate : Dataset) (y_validate : String → List ℚ) :
    ∀ r ∈ calculate_classification_results model_names accuracies_train
        accuracies_validate validate y_validate,
      r.train_accuracy.isSome ∧ r.train_rmse = none ∧ r.validate_rmse = none := by
  intro r hr
  simp only [calculate_classification_results, sortByPct] at hr
  rcases List.mem_append.mp (mem_sortRows _ _ _ hr) with h | h
  · rcases List.mem_map.mp h with ⟨m, _, rfl⟩
    exact ⟨rfl, rfl, rfl⟩
  · rcases List.mem_singleton.mp h with rfl
    exact ⟨rfl, rfl, rfl⟩

theorem assetTable_shape (k : String) (a : AssetInput) :
    ∀ r ∈ assetTable k a,
      (¬(r.train_rmse.isSome ∧ r.train_accuracy.isSome)) ∧
      ((r.train_rmse = none ∧ r.train_accuracy = none) →
        r.name = "baseline_reg" ++ "_" ++ k) := by
  intro r hr
  simp only [assetTable, sortByPct] at hr
  rcases List.mem_map.mp hr with ⟨r0, hr0, rfl⟩
  rcases List.mem_append.mp (mem_sortRows _ _ _ hr0) with h | h
  · rcases calc_reg_shape _ _ _ _ _ r0 h with ⟨hs, ha, _⟩ | ⟨hn, hs, ha⟩
    · refine ⟨?_, ?_⟩
      · intro hc
        rw [ha] at hc
        simp at hc
      · intro hc
        rw [hc.1] at hs
        simp at hs
    · refine ⟨?_, ?_⟩
      · intro hc
        rw [hs] at hc
        simp at hc
      · intro _
        show r0.name ++ "_" ++ k = _
        rw [hn]
  · rcases calc_class_shape _ _ _ _ _ r0 h with ⟨hs, hr1, _⟩
    refine ⟨?_, ?_⟩
    · intro hc
      rw [hr1] at hc
      simp at hc
    · intro hc
      rw [hc.2] at hs
      simp at hs

/-- The validate test data used for the leaderboard claims: two validate
rows with close, forward return and forward percent-change columns. -/
def c6Validate : Dataset :=
  [⟨0, fun c => if c = "close" then 100 else if c = "fwd_ret" then 5
      else if c = "fwd_pct_chg" then 1 / 20 else 0⟩,
   ⟨1, fun c => if c = "close" then 105 else if c = "fwd_ret" then 2
      else if c = "fwd_pct_chg" then 1 / 50 else 0⟩]

/-- A concrete single-asset input for the conventional split: one regression
model and one classification model with fixed metrics and predictions. -/
def c6Asset : AssetInput :=
  ⟨c6Validate,
   ["LinearRegression"], fun _ => 1, fun _ => 2, fun _ => [1, -1],
   ["LogisticRegression"], fun _ => 3 / 4, fun _ => 1 / 2, fun _ => [1, 0]⟩

/-- Counterexample to C6 as stated: the `baseline_reg` leaderboard row has
both `train_rmse` and `train_accuracy` null — not exactly one. -/
theorem claim_C6_counterexample :
    ¬ (∀ r ∈ conventional_split [("BTC", c6Asset)],
        (r.train_rmse.isSome ∧ r.train_accuracy = none) ∨
        (r.train_rmse = none ∧ r.train_accuracy.isSome)) := by
  decide

/-- **C6** (amended): in every final conventional-split leaderboard row at
most one of `{train_rmse, train_accuracy}` is non-null, and a row with both
null is exactly a per-asset regression-baseline row (`baseline_reg_<asset>`,
whose metric cells are all NaN); every other row has exactly one populated.
The dropoff value is the `np.select` of lines 457-459: the accuracy formula
`(validate_accuracy - train_accuracy)/train_accuracy` when `train_rmse` is
null, and the RMSE formula `(validate_rmse - train_rmse)/train_rmse` when
`train_rmse` is populated and `train_accuracy` is null — so the formula
applied always matches the populated metric pair, and on the regression
baseline (both null) the dropoff is null. -/
theorem claim_C6_dropoff_exclusivity (split_data : List (String × AssetInput)) :
    ∀ r ∈ conventional_split split_data,
      (¬(r.train_rmse.isSome ∧ r.train_accuracy.isSome)) ∧
      r.dropoff = dropoffSelect r ∧
      ((r.train_rmse = none ∧ r.train_accuracy = none) →
        ∃ k, r.name = "baseline_reg" ++ "_" ++ k) := by
  intro r hr
  simp only [conventional_split] at hr
  rcases List.mem_map.mp hr with ⟨r1, hr1, rfl⟩
  rcases List.mem_flatten.mp hr1 with ⟨block, hblock, hmem⟩
  rcases List.mem_map.mp hblock with ⟨ka, _, rfl⟩
  have hshape := assetTable_shape ka.1 ka.2 r1 hmem
  refine ⟨hshape.1, rfl, ?_⟩
  intro hc
  exact ⟨ka.1, hshape.2 hc⟩

/-- Witness for C6: the regression-baseline row of a concrete one-asset
leaderboard, with both metric cells null and a null dropoff. -/
theorem claim_C6_dropoff_exclusivity_witness :
    ((⟨"baseline_reg_BTC", some (7 / 2), some (7 / 200), none, none, none, none,
        none⟩ : LBRow) ∈ conventional_split [("BTC", c6Asset)]) ∧
    ((¬((⟨"baseline_reg_BTC", some (7 / 2), some (7 / 200), none, none, none, none,
          none⟩ : LBRow).train_rmse.isSome ∧
        (⟨"baseline_reg_BTC", some (7 / 2), some (7 / 200), none, none, none, none,
          none⟩ : LBRow).train_accuracy.isSome)) ∧
      (⟨"baseline_reg_BTC", some (7 / 2), some (7 / 200), none, none, none, none,
        none⟩ : LBRow).dropoff =
        dropoffSelect (⟨"baseline_reg_BTC", some (7 / 2), some (7 / 200), none, none,
          none, none, none⟩ : LBRow) ∧
      (((⟨"baseline_reg_BTC", some (7 / 2), some (7 / 200), none, none, none, none,
          none⟩ : LBRow).train_rmse = none ∧
        (⟨"baseline_reg_BTC", some (7 / 2), some (7 / 200), none, none, none, none,
          none⟩ : LBRow).train_accuracy = none) →
        ∃ k, (⟨"baseline_reg_BTC", some (7 / 2), some (7 / 200), none, none, none,
          none, none⟩ : LBRow).name = "baseline_reg" ++ "_" ++ k)) :=
  ⟨by decide,
    claim_C6_dropoff_exclusivity [("BTC", c6Asset)] _ (by decide)⟩

/-- A second concrete asset whose best row has a much larger percent average
trade return than anything in `c6Asset`. -/
def c8Asset : AssetInput :=
  ⟨[⟨0, fun c => if c = "close" then 100 else if c = "fwd_ret" then 100
      else if c = "fwd_pct_chg" then 1 else 0⟩,
    ⟨1, fun c => if c = "close" then 200 else if c = "fwd_ret" then 3
      else if c = "fwd_pct_chg" then 3 / 200 else 0⟩],
   ["LinearRegression"], fun _ => 1, fun _ => 2, fun _ => [1, -1],
   ["LogisticRegression"], fun _ => 3 / 4, fun _ => 1 / 2, fun _ => [1, 0]⟩

/-- `true` iff every adjacent pair of rows is ordered by `le`: the list is
sorted under the comparison. -/
def chainBool (le : LBRow → LBRow → Bool) : List LBRow → Bool
  | a :: b :: rest => le a b && chainBool le (b :: rest)
  | _ => true

/-- **C8** (code bug): the table `conventional_split` returns is not sorted
descending by percent average trade return (with or without the dropoff tie
break) — it is the concatenation of per-asset blocks, each sorted by
`pct_avg_trade` alone.  The globally sorted, dropoff-tie-broken ranking the
claim describes is exactly the bare expression of src/model.py lines
460-461, whose value is computed and then discarded instead of returned: on
the same input that discarded ranking is sorted as claimed. -/
theorem claim_C8_leaderboard_not_sorted :
    chainBool pctDescLe (conventional_split [("AAA", c6Asset), ("BBB", c8Asset)]) = false ∧
    chainBool pctDropoffDescLe
      (conventional_split [("AAA", c6Asset), ("BBB", c8Asset)]) = false ∧
    chainBool pctDropoffDescLe
      (rankedLeaderboard (conventional_split [("AAA", c6Asset), ("BBB", c8Asset)])) =
      true := by
  refine ⟨by decide, by decide, by decide⟩

end CryptoForecast
